import Mathlib

/-!
Verification of the Position Allocation & Weight-Balance Engine of the
`agenticcases` flight-cargo repository.  The repository ships the tests,
the Lambda entry point and the deployment scripts of the engine; the
engine package itself (`flight_cargo_assessment`) is not among the source
files, so its data model and operations are modelled from the
specification, while `lambda_handler.py` is embedded directly from its
source.  All real-valued quantities (metres, kilograms, scores) are
modelled as rationals.
-/

namespace CargoEngine

/-- Modelled from the spec: `Dimensions` — length, width, height in metres. -/
structure Dimensions where
  length : ℚ
  width : ℚ
  height : ℚ
deriving DecidableEq, Repr

/-- Modelled from the spec: derived volume = l × w × h. -/
def Dimensions.volume (d : Dimensions) : ℚ :=
  d.length * d.width * d.height

/-- Modelled from the spec: the closed cargo-type enumeration. -/
inductive CargoType where
  | electronics
  | textiles
  | machinery
  | automotiveParts
  | general
deriving DecidableEq, Repr

/-- Modelled from the spec: the two deck types. -/
inductive DeckType where
  | lowerDeck
  | mainDeck
deriving DecidableEq, Repr

/-- Modelled from the spec: request priority enumeration. -/
inductive Priority where
  | low
  | normal
  | high
  | urgent
deriving DecidableEq, Repr

/-- Modelled from the spec: `Cargo` — immutable once created. -/
structure Cargo where
  id : String
  dims : Dimensions
  weight : ℚ
  stackable : Bool
  tiltable : Bool
  fragile : Bool
  cargoType : CargoType
  specialHandling : List String := []
deriving DecidableEq, Repr

/-- Modelled from the spec: occupancy state of a load position. -/
inductive OccState where
  | available
  | reserved
  | occupied
deriving DecidableEq, Repr

/-- Modelled from the spec: `Position` — a load position; `arm` is the
longitudinal moment arm from the datum (normally the x coordinate), and
`occupant` is the nullable cargo reference. -/
structure Position where
  id : String
  deckType : DeckType
  arm : ℚ
  maxDims : Dimensions
  maxWeight : ℚ
  state : OccState
  occupant : Option Cargo
deriving DecidableEq, Repr

/-- Modelled from the spec: `CargoRequest`. -/
structure CargoRequest where
  cargo : Cargo
  preferredDeck : Option DeckType
  priority : Priority
  requestedBy : String
deriving DecidableEq, Repr

/-- Modelled from the spec: global aircraft limit `max_total_weight = 110,000 kg`. -/
def maxTotalWeight : ℚ := 110000

/-- Modelled from the spec: lower bound of the CG envelope, 16.5 m. -/
def cgLowerLimit : ℚ := 33 / 2

/-- Modelled from the spec: upper bound of the CG envelope, 26.8 m. -/
def cgUpperLimit : ℚ := 134 / 5

/-- Modelled from the spec: the sentinel CG returned when the total weight
is zero.  The spec defines `CG = 0` when total weight = 0 and calls the
sentinel the aircraft's empty-weight CG, so the empty-weight CG is 0. -/
def emptyWeightCG : ℚ := 0

/-- Modelled from the spec: `calculate_center_of_gravity(weights, arms)` —
the weighted mean Σ(w·a)/Σw, returning the defined sentinel (the
empty-weight CG) instead of dividing by zero when Σw = 0. -/
def calculate_center_of_gravity (weights arms : List ℚ) : ℚ :=
  if weights.sum = 0 then emptyWeightCG
  else (List.zipWith (fun w a => w * a) weights arms).sum / weights.sum

/-- Modelled from the spec: `validate_cg_limits(cg, low, high)` — inclusive
range check. -/
def validate_cg_limits (cg low high : ℚ) : Bool :=
  decide (low ≤ cg) && decide (cg ≤ high)

/-- Modelled from the spec: the reservation-error taxonomy of the Position
Inventory (`AlreadyOccupied` on an impossible reserve, the no-op error on
releasing an AVAILABLE position, `NotFound` for unknown ids). -/
inductive ReservationError where
  | alreadyOccupied
  | alreadyAvailable
  | occupiedByOther
  | notFound
deriving DecidableEq, Repr

/-- Modelled from the spec: `reserve(position_id, cargo)` on a single
position — succeeds only if state is AVAILABLE, transitioning to RESERVED
and binding the occupant, and fails with AlreadyOccupied otherwise.  The
tests destructure the result as a (success, message) pair; the `Except`
carries the same information as the spec's `Result<(), ReservationError>`. -/
def reserve_position_step (p : Position) (c : Cargo) :
    Except ReservationError Position :=
  match p.state with
  | OccState.available =>
      Except.ok { p with state := OccState.reserved, occupant := some c }
  | _ => Except.error ReservationError.alreadyOccupied

/-- Modelled from the spec: `occupy(position_id, cargo)` on a single
position — RESERVED→OCCUPIED or AVAILABLE→OCCUPIED directly, binding the
occupant; fails if already OCCUPIED by a different cargo. -/
def occupy_position_step (p : Position) (c : Cargo) :
    Except ReservationError Position :=
  match p.state with
  | OccState.available =>
      Except.ok { p with state := OccState.occupied, occupant := some c }
  | OccState.reserved =>
      Except.ok { p with state := OccState.occupied, occupant := some c }
  | OccState.occupied =>
      if p.occupant = some c then Except.ok p
      else Except.error ReservationError.occupiedByOther

/-- Modelled from the spec: `release(position_id)` on a single position —
transitions to AVAILABLE and clears the occupant; no-op error if the
position is already AVAILABLE. -/
def release_position_step (p : Position) :
    Except ReservationError Position :=
  match p.state with
  | OccState.available => Except.error ReservationError.alreadyAvailable
  | _ => Except.ok { p with state := OccState.available, occupant := none }

/-- Modelled from the spec: the Position Inventory holds all load
positions; lookup is by id (`get_position_by_id`, NotFound when absent). -/
def get_position_by_id (inv : List Position) (pid : String) : Option Position :=
  inv.find? (fun p => p.id == pid)

/-- Replace the position with the given id (check-then-commit update used
by the mutating inventory operations). -/
def setPosition (inv : List Position) (pid : String) (p' : Position) :
    List Position :=
  inv.map (fun q => if q.id == pid then p' else q)

/-- Modelled from the spec: inventory-level `reserve` — validate before
mutating; on any error the inventory is left untouched. -/
def reserve_position (inv : List Position) (pid : String) (c : Cargo) :
    Except ReservationError (List Position) :=
  match get_position_by_id inv pid with
  | none => Except.error ReservationError.notFound
  | some p => (reserve_position_step p c).map (setPosition inv pid)

/-- Modelled from the spec: inventory-level `occupy`. -/
def occupy_position (inv : List Position) (pid : String) (c : Cargo) :
    Except ReservationError (List Position) :=
  match get_position_by_id inv pid with
  | none => Except.error ReservationError.notFound
  | some p => (occupy_position_step p c).map (setPosition inv pid)

/-- Modelled from the spec: inventory-level `release`. -/
def release_position (inv : List Position) (pid : String) :
    Except ReservationError (List Position) :=
  match get_position_by_id inv pid with
  | none => Except.error ReservationError.notFound
  | some p => (release_position_step p).map (setPosition inv pid)

/-- Modelled from the spec: the occupancy invariant — the occupant is
non-null iff the state is RESERVED or OCCUPIED. -/
def occupancyInvariant (p : Position) : Prop :=
  p.occupant.isSome = true ↔
    (p.state = OccState.reserved ∨ p.state = OccState.occupied)

instance (p : Position) : Decidable (occupancyInvariant p) := by
  unfold occupancyInvariant; infer_instance

/-- Boolean success test on a reservation result. -/
def resultOk {α : Type} (r : Except ReservationError α) : Bool :=
  match r with
  | Except.ok _ => true
  | Except.error _ => false

/-- Concrete electronics cargo used to instantiate the general theorems. -/
def wCargo1 : Cargo :=
  { id := "TEST001", dims := { length := 1, width := 1, height := 1 },
    weight := 500, stackable := true, tiltable := false, fragile := false,
    cargoType := CargoType.electronics }

/-- A second concrete cargo, distinct from `wCargo1`. -/
def wCargo2 : Cargo :=
  { id := "TEST002", dims := { length := 1, width := 1, height := 1 },
    weight := 300, stackable := true, tiltable := true, fragile := false,
    cargoType := CargoType.textiles }

/-- A concrete AVAILABLE lower-deck position. -/
def wPosAvail : Position :=
  { id := "LD-01-01", deckType := DeckType.lowerDeck, arm := 20,
    maxDims := { length := 2, width := 2, height := 2 },
    maxWeight := 1500, state := OccState.available, occupant := none }

/-- A concrete OCCUPIED position. -/
def wPosOccupied : Position :=
  { id := "MD-01-01", deckType := DeckType.mainDeck, arm := 22,
    maxDims := { length := 3, width := 2, height := 2 },
    maxWeight := 3000, state := OccState.occupied, occupant := some wCargo2 }

/-- Modelled from the spec: alert severities. -/
inductive Severity where
  | critical
  | high
  | medium
  | low
deriving DecidableEq, Repr

/-- Modelled from the spec: alert types. -/
inductive AlertType where
  | capacity
  | weightBalance
  | constraintViolation
deriving DecidableEq, Repr

/-- Modelled from the spec: `Alert`. -/
structure Alert where
  severity : Severity
  alertType : AlertType
  message : String
  suggestedActions : List String
deriving DecidableEq, Repr

/-- Modelled from the spec: `UtilizationMetrics` — percentages 0–100 plus
position counts. -/
structure UtilizationMetrics where
  totalUtilization : ℚ
  lowerDeckUtilization : ℚ
  mainDeckUtilization : ℚ
  weightUtilization : ℚ
  availablePositions : Nat
  totalPositions : Nat
deriving DecidableEq, Repr

/-- The CRITICAL capacity alert emitted by the monitor. -/
def criticalCapacityAlert : Alert :=
  { severity := Severity.critical, alertType := AlertType.capacity,
    message := "Capacity critical", suggestedActions := ["defer non-urgent cargo"] }

/-- The HIGH capacity alert emitted by the monitor. -/
def highCapacityAlert : Alert :=
  { severity := Severity.high, alertType := AlertType.capacity,
    message := "Capacity high", suggestedActions := ["plan overflow capacity"] }

/-- The MEDIUM capacity alert emitted by the monitor. -/
def mediumCapacityAlert : Alert :=
  { severity := Severity.medium, alertType := AlertType.capacity,
    message := "Capacity elevated", suggestedActions := ["monitor utilization trend"] }

/-- Modelled from the spec: `monitor_capacity(metrics)` — emits CRITICAL
when total_utilization ≥ 95% or weight_utilization ≥ 98%, otherwise HIGH
when total_utilization ≥ 85%, otherwise MEDIUM when ≥ 70%, otherwise no
alert. -/
def monitor_capacity (m : UtilizationMetrics) : List Alert :=
  if 95 ≤ m.totalUtilization ∨ 98 ≤ m.weightUtilization then
    [criticalCapacityAlert]
  else if 85 ≤ m.totalUtilization then [highCapacityAlert]
  else if 70 ≤ m.totalUtilization then [mediumCapacityAlert]
  else []

/-- Concrete metrics at 96% total utilization. -/
def wMetrics96 : UtilizationMetrics :=
  { totalUtilization := 96, lowerDeckUtilization := 90, mainDeckUtilization := 98,
    weightUtilization := 50, availablePositions := 2, totalPositions := 56 }

/-- Concrete metrics at 90% total utilization. -/
def wMetrics90 : UtilizationMetrics :=
  { totalUtilization := 90, lowerDeckUtilization := 88, mainDeckUtilization := 92,
    weightUtilization := 50, availablePositions := 5, totalPositions := 56 }

/-- Concrete metrics at 75% total utilization. -/
def wMetrics75 : UtilizationMetrics :=
  { totalUtilization := 75, lowerDeckUtilization := 70, mainDeckUtilization := 80,
    weightUtilization := 40, availablePositions := 14, totalPositions := 56 }

/-- Concrete metrics at 20% total utilization. -/
def wMetrics20 : UtilizationMetrics :=
  { totalUtilization := 20, lowerDeckUtilization := 15, mainDeckUtilization := 25,
    weightUtilization := 10, availablePositions := 45, totalPositions := 56 }

/-- Modelled from the spec: fixed configuration weight of the
volumetric-fit factor in the composite score. -/
def volFitWeight : ℚ := mkRat 1 2

/-- Modelled from the spec: fixed configuration weight of the
weight-margin factor. -/
def weightMarginWeight : ℚ := mkRat 3 10

/-- Modelled from the spec: fixed configuration bonus for a deck-preference
match. -/
def deckPreferenceWeight : ℚ := mkRat 1 5

/-- One orientation fits when every axis is within the envelope. -/
def fitsOriented (d bound : Dimensions) : Bool :=
  decide (d.length ≤ bound.length) && decide (d.width ≤ bound.width) &&
    decide (d.height ≤ bound.height)

/-- The six axis permutations tried for a tiltable cargo. -/
def axisPerms (d : Dimensions) : List Dimensions :=
  [⟨d.length, d.width, d.height⟩, ⟨d.length, d.height, d.width⟩,
   ⟨d.width, d.length, d.height⟩, ⟨d.width, d.height, d.length⟩,
   ⟨d.height, d.length, d.width⟩, ⟨d.height, d.width, d.length⟩]

/-- Modelled from the spec: dimensional feasibility of a cargo against an
envelope — the as-given orientation only for non-tiltable cargo, all axis
permutations for tiltable cargo. -/
def fitsDims (c : Cargo) (bound : Dimensions) : Bool :=
  if c.tiltable then (axisPerms c.dims).any (fun d => fitsOriented d bound)
  else fitsOriented c.dims bound

/-- Modelled from the spec: `score(cargo, position)` — 0 (infeasible) when
a hard dimension exceeds max_dimensions (with tiltable permutations) or
the weight exceeds max_weight; otherwise the fixed-weight composite of the
volumetric-fit ratio, the weight-margin ratio and the deck-preference
bonus.  The spec's fragility/vibration and special-handling factors and
the stacking rejection refer to per-position data (vibration flags,
supported tags, stacking requirement) that the spec's Position record does
not carry, so they contribute nothing here. -/
def score (pref : Option DeckType) (c : Cargo) (p : Position) : ℚ :=
  if fitsDims c p.maxDims && decide (c.weight ≤ p.maxWeight) then
    volFitWeight * (c.dims.volume / p.maxDims.volume) +
      weightMarginWeight * (1 - c.weight / p.maxWeight) +
      (if pref = some p.deckType then deckPreferenceWeight else 0)
  else 0

/-- Candidate ordering: strictly higher score first, ties broken by lower
position id, for determinism. -/
def scoredBefore (a b : Position × ℚ) : Bool :=
  decide (b.2 < a.2) || (decide (a.2 = b.2) && decide (a.1.id < b.1.id))

/-- Insertion step of the deterministic candidate sort. -/
def insertScored (x : Position × ℚ) :
    List (Position × ℚ) → List (Position × ℚ)
  | [] => [x]
  | y :: ys => if scoredBefore x y then x :: y :: ys else y :: insertScored x ys

/-- Insertion sort by descending score then ascending id. -/
def sortScored : List (Position × ℚ) → List (Position × ℚ)
  | [] => []
  | x :: xs => insertScored x (sortScored xs)

/-- Modelled from the spec: `find_best_positions` — AVAILABLE positions
(restricted to the preferred deck when one is given, per the coordinator's
step 2), scored, score-0 candidates discarded, sorted by descending score
then ascending id, truncated to `maxResults`. -/
def find_best_positions (inv : List Position) (pref : Option DeckType)
    (c : Cargo) (maxResults : Nat) : List (Position × ℚ) :=
  let avail := inv.filter (fun p => decide (p.state = OccState.available))
  let onDeck : List Position := match pref with
    | some d => avail.filter (fun p => decide (p.deckType = d))
    | none => avail
  let feasible := (onDeck.map (fun p => (p, score pref c p))).filter
    (fun x => decide (x.2 ≠ 0))
  (sortScored feasible).take maxResults

/-- The OCCUPIED positions of the inventory. -/
def occupiedPositions (inv : List Position) : List Position :=
  inv.filter (fun p => decide (p.state = OccState.occupied))

/-- The weight carried at a position (0 for a null occupant). -/
def occupantWeight (p : Position) : ℚ :=
  match p.occupant with
  | some c => c.weight
  | none => 0

/-- Modelled from the spec: the running total weight, summed over the
OCCUPIED positions. -/
def currentTotalWeight (inv : List Position) : ℚ :=
  ((occupiedPositions inv).map occupantWeight).sum

/-- Modelled from the spec: the running CG, Σ(wᵢ·armᵢ)/Σwᵢ over the
OCCUPIED positions, via `calculate_center_of_gravity`. -/
def currentCG (inv : List Position) : ℚ :=
  calculate_center_of_gravity ((occupiedPositions inv).map occupantWeight)
    ((occupiedPositions inv).map Position.arm)

/-- Modelled from the spec: `WeightBalanceImpact` (the longitudinal CG
coordinate is the safety-relevant one, so the CG fields are the
longitudinal values). -/
structure WeightBalanceImpact where
  current_cg : ℚ
  new_cg : ℚ
  cg_shift : ℚ
  new_total_weight : ℚ
  within_limits : Bool
deriving DecidableEq, Repr

/-- Modelled from the spec: `calculate_cg_impact(cargo, candidate_position)`
— the CG and total weight as if the cargo were added at the position,
without mutating state, with the combined CG-envelope and
max-total-weight check. -/
def calculate_cg_impact (inv : List Position) (c : Cargo) (p : Position) :
    WeightBalanceImpact :=
  let newCG := calculate_center_of_gravity
    (((occupiedPositions inv).map occupantWeight) ++ [c.weight])
    (((occupiedPositions inv).map Position.arm) ++ [p.arm])
  { current_cg := currentCG inv, new_cg := newCG,
    cg_shift := newCG - currentCG inv,
    new_total_weight := currentTotalWeight inv + c.weight,
    within_limits := validate_cg_limits newCG cgLowerLimit cgUpperLimit &&
      decide (currentTotalWeight inv + c.weight ≤ maxTotalWeight) }

/-- Deck utilization percentage over the positions of one deck. -/
def deckUtilizationPct (inv : List Position) (d : DeckType) : ℚ :=
  let ps := inv.filter (fun p => decide (p.deckType = d))
  if ps.length = 0 then 0
  else 100 * (((ps.filter (fun p => decide (p.state ≠ OccState.available))).length : ℚ)
    / (ps.length : ℚ))

/-- Modelled from the spec: `utilization_metrics()` — position and weight
utilization computed from the current occupancy. -/
def get_utilization_metrics (inv : List Position) : UtilizationMetrics :=
  { totalUtilization :=
      if inv.length = 0 then 0
      else 100 * (((inv.filter
        (fun p => decide (p.state ≠ OccState.available))).length : ℚ)
        / (inv.length : ℚ)),
    lowerDeckUtilization := deckUtilizationPct inv DeckType.lowerDeck,
    mainDeckUtilization := deckUtilizationPct inv DeckType.mainDeck,
    weightUtilization := 100 * (currentTotalWeight inv / maxTotalWeight),
    availablePositions :=
      (inv.filter (fun p => decide (p.state = OccState.available))).length,
    totalPositions := inv.length }

/-- Modelled from the spec: `PositionRecommendation`. -/
structure PositionRecommendation where
  position : Position
  fit_score : ℚ
  reasoning : List String
  constraints_satisfied : Bool
deriving DecidableEq, Repr

/-- Modelled from the spec: `AssessmentResult`. -/
structure AssessmentResult where
  assessment_successful : Bool
  cargo_id : String
  recommended_positions : List PositionRecommendation
  capacity_utilization : UtilizationMetrics
  weight_balance_impact : Option WeightBalanceImpact
  alerts : List Alert
  error_message : String
deriving DecidableEq, Repr

/-- Modelled from the spec: the lower-deck position envelope.  Numeric
per-position envelopes are not fixed by the spec beyond the 2.4 m
lower-deck stack-height limit; these constants respect that limit and the
spec's scenarios A and B (a 1.5×1.2×0.8 m, 500 kg cargo fits, a
3.0×2.5×2.0 m cargo fits no position). -/
def lowerDeckMaxDims : Dimensions := ⟨2, mkRat 9 5, mkRat 8 5⟩

/-- Modelled from the spec: per-position weight limit on the lower deck. -/
def lowerDeckMaxWeight : ℚ := 1500

/-- Modelled from the spec: the main-deck position envelope (height within
the 3.2 m main-deck stack limit), the largest of the two. -/
def mainDeckMaxDims : Dimensions := ⟨mkRat 14 5, mkRat 23 10, 2⟩

/-- Modelled from the spec: per-position weight limit on the main deck. -/
def mainDeckMaxWeight : ℚ := 3000

/-- The largest position envelope across the fixed configuration: every
main-deck axis bound dominates the lower-deck one. -/
def largestPositionEnvelope : Dimensions := mainDeckMaxDims

/-- The largest per-position weight limit across the configuration. -/
def largestPositionWeight : ℚ := mainDeckMaxWeight

/-- Modelled from the spec: step 1 of the coordinator — immediate failure
when the cargo's weight exceeds max_total_weight alone, or a dimension
exceeds the largest position envelope (with tiltable orientations), or the
weight exceeds every position's max_weight. -/
def exceedsAbsoluteLimits (c : Cargo) : Bool :=
  decide (maxTotalWeight < c.weight) ||
    !(fitsDims c largestPositionEnvelope) ||
    decide (largestPositionWeight < c.weight)

/-- Annotate a scored candidate (with its impact) as a recommendation. -/
def mkRecommendation (ok : Bool) (t : Position × ℚ × WeightBalanceImpact) :
    PositionRecommendation :=
  { position := t.1, fit_score := t.2.1,
    reasoning := ["spatial fit and weight margin scored",
      "weight and balance impact evaluated"],
    constraints_satisfied := ok }

/-- Modelled from the spec: the least-violating candidate, ranked by
smallest absolute CG shift. -/
def leastViolating :
    List (Position × ℚ × WeightBalanceImpact) →
      Option (Position × ℚ × WeightBalanceImpact)
  | [] => none
  | t :: ts =>
    match leastViolating ts with
    | none => some t
    | some u => if |t.2.2.cg_shift| ≤ |u.2.2.cg_shift| then some t else some u

/-- The alert raised on an absolute-limit validation failure. -/
def absoluteLimitAlert : Alert :=
  { severity := Severity.critical, alertType := AlertType.constraintViolation,
    message := "Cargo exceeds absolute aircraft limits", suggestedActions := [] }

/-- The alert raised when every candidate violates the weight or CG limits. -/
def weightViolationAlert : Alert :=
  { severity := Severity.high, alertType := AlertType.weightBalance,
    message := "All candidates violate weight or CG limits",
    suggestedActions := ["redistribute load"] }

/-- Modelled from the spec: `assess_cargo_placement(request)` — (1)
validate against absolute aircraft limits with immediate failure and no
positions considered; (2) retrieve up to 10 candidates through the spatial
fit scorer; (3) compute the weight-balance impact of each and keep those
within limits, falling back to the least-violating candidate flagged
`constraints_satisfied = false` when none survive; (4–5) annotate with
reasoning, aggregate utilization, and succeed iff a fully compliant
candidate exists. -/
def assess_cargo_placement (inv : List Position) (req : CargoRequest) :
    AssessmentResult :=
  let c := req.cargo
  let metrics := get_utilization_metrics inv
  if exceedsAbsoluteLimits c then
    { assessment_successful := false, cargo_id := c.id,
      recommended_positions := [], capacity_utilization := metrics,
      weight_balance_impact := none,
      alerts := [absoluteLimitAlert],
      error_message := "Cargo exceeds absolute aircraft limits" }
  else
    let withImpact := (find_best_positions inv req.preferredDeck c 10).map
      (fun pc => (pc.1, pc.2, calculate_cg_impact inv c pc.1))
    let surviving := withImpact.filter (fun t => t.2.2.within_limits)
    if surviving.isEmpty then
      match leastViolating withImpact with
      | none =>
          { assessment_successful := false, cargo_id := c.id,
            recommended_positions := [], capacity_utilization := metrics,
            weight_balance_impact := none, alerts := [],
            error_message := "No suitable positions found" }
      | some t =>
          { assessment_successful := false, cargo_id := c.id,
            recommended_positions := [mkRecommendation false t],
            capacity_utilization := metrics,
            weight_balance_impact := some t.2.2,
            alerts := [weightViolationAlert],
            error_message := "All candidate positions violate weight or CG limits" }
    else
      { assessment_successful := true, cargo_id := c.id,
        recommended_positions := surviving.map (mkRecommendation true),
        capacity_utilization := metrics,
        weight_balance_impact := (surviving.head?).map (fun t => t.2.2),
        alerts := [], error_message := "" }

/-- Modelled from the spec: the inventory created at process start — 24
lower-deck and 32 main-deck positions, all AVAILABLE. -/
def mkLowerPosition (i : Nat) : Position :=
  { id := "LD-" ++ toString (i + 1), deckType := DeckType.lowerDeck,
    arm := 14 + mkRat i 2, maxDims := lowerDeckMaxDims,
    maxWeight := lowerDeckMaxWeight, state := OccState.available,
    occupant := none }

/-- A main-deck position of the initial configuration. -/
def mkMainPosition (i : Nat) : Position :=
  { id := "MD-" ++ toString (i + 1), deckType := DeckType.mainDeck,
    arm := 13 + mkRat i 2, maxDims := mainDeckMaxDims,
    maxWeight := mainDeckMaxWeight, state := OccState.available,
    occupant := none }

/-- The initial 56-position inventory (24 lower + 32 main, all AVAILABLE). -/
def initialInventory : List Position :=
  ((List.range 24).map mkLowerPosition) ++ ((List.range 32).map mkMainPosition)

/-- Scenario B's cargo: 3.0×2.5×2.0 m, 2800 kg, non-stackable, fragile
machinery with special handling tags. -/
def oversizedCargo : Cargo :=
  { id := "OVERSIZED001", dims := ⟨3, mkRat 5 2, 2⟩, weight := 2800,
    stackable := false, tiltable := false, fragile := true,
    cargoType := CargoType.machinery,
    specialHandling := ["orientation_critical", "heavy_lift"] }

/-- Scenario B's request. -/
def oversizedRequest : CargoRequest :=
  { cargo := oversizedCargo, preferredDeck := some DeckType.mainDeck,
    priority := Priority.urgent, requestedBy := "special_cargo_team" }

/-- Scenario A's cargo: 1.5×1.2×0.8 m, 500 kg stackable electronics. -/
def wCargoA : Cargo :=
  { id := "NORM001", dims := ⟨mkRat 3 2, mkRat 6 5, mkRat 4 5⟩, weight := 500,
    stackable := true, tiltable := false, fragile := false,
    cargoType := CargoType.electronics }

/-- A one-position inventory used to instantiate the safety theorem. -/
def wInvA : List Position := [wPosAvail]

/-- Scenario A's request against `wInvA`. -/
def wRequestA : CargoRequest :=
  { cargo := wCargoA, preferredDeck := some DeckType.lowerDeck,
    priority := Priority.normal, requestedBy := "operations_team" }

/-- The first recommendation returned for `wRequestA` (with an irrelevant
default for the empty case). -/
def wRecA : PositionRecommendation :=
  ((assess_cargo_placement wInvA wRequestA).recommended_positions).headD
    (mkRecommendation false (wPosAvail, 0, calculate_cg_impact wInvA wCargoA wPosAvail))

end CargoEngine

namespace LambdaHandler

/-!
Direct embedding of `BedrockAgentExecutor.assess_cargo` from
`src/strandsagentic/lambda_handler.py`.  The module-scope bindings of that
file come from lines 5–13 (`json`, `os`, `sys`, `logging`, the typing
names and the logger); the name `time` is bound only inside `handler`
(line 301), where a local `import` makes it a local of `handler`, so it is
not in scope inside `assess_cargo`.  The function either returns a
response dict or propagates an exception, so it is embedded as
`Except PyExc AssessResponse`: the `except` block itself evaluates
`cargo_data.get('cargo_id', 'unknown')` (line 193), which raises
AttributeError again whenever `cargo_data` is not a dict.
-/

/-- The bare names bound at module scope of `lambda_handler.py` and usable
from inside `assess_cargo`. -/
def moduleScopeNames : List String :=
  ["json", "os", "sys", "logging", "Dict", "Any", "List", "logger"]

/-- A Python exception as observed by the `except Exception` clause of
`assess_cargo` (lines 189–202) or propagated out of it. -/
inductive PyExc where
  | nameError (n : String)
  | valueError (v : String)
  | attributeError (attr : String)
deriving DecidableEq, Repr

/-- The message `str(e)` of an exception.  (Python prefixes the
AttributeError message with the value's type name, e.g. `'NoneType'
object has no attribute 'get'`; the claims only use non-emptiness, so the
varying prefix is dropped.) -/
def PyExc.message : PyExc → String
  | PyExc.nameError n => "name '" ++ n ++ "' is not defined"
  | PyExc.valueError v => "'" ++ v ++ "' is not a valid CargoType"
  | PyExc.attributeError a => "object has no attribute '" ++ a ++ "'"

/-- Resolving a bare name from inside `assess_cargo`: module scope only;
a `NameError` when the name is not bound there. -/
def lookupModuleName (n : String) : Except PyExc Unit :=
  if moduleScopeNames.contains n then Except.ok ()
  else Except.error (PyExc.nameError n)

/-- The `requestBody` payload read by `assess_cargo` (lines 74–106): each
field optional, exactly as `dict.get` leaves it. -/
structure RequestBody where
  cargo_id : Option String
  dim_length : Option ℚ
  dim_width : Option ℚ
  dim_height : Option ℚ
  weight : Option ℚ
  stackable : Option Bool
  tiltable : Option Bool
  fragile : Option Bool
  cargo_type : Option String
  preferred_deck : Option String
  priority : Option String
deriving DecidableEq, Repr

/-- A request body with every field absent (the `{}` default of
`event_data.get('requestBody', {})`, line 74). -/
def emptyRequestBody : RequestBody :=
  { cargo_id := none, dim_length := none, dim_width := none,
    dim_height := none, weight := none, stackable := none, tiltable := none,
    fragile := none, cargo_type := none, preferred_deck := none,
    priority := none }

/-- A value stored under the `requestBody` key: a JSON object (a dict,
which has `.get`), or any non-dict value — None, a string, a number, a
list — on which calling `.get` raises AttributeError. -/
inductive PyBody where
  | dict (b : RequestBody)
  | nonDict
deriving DecidableEq, Repr

/-- A Lambda event as consumed by `assess_cargo`: the `requestBody` key
may be absent, hold a dict, or hold a non-dict value. -/
structure LambdaEvent where
  requestBody : Option PyBody
deriving DecidableEq, Repr

/-- `CargoType(value)` (line 90): a ValueError for a value outside the
enumeration. -/
def parseCargoType (s : String) : Except PyExc CargoEngine.CargoType :=
  if s = "electronics" then Except.ok CargoEngine.CargoType.electronics
  else if s = "textiles" then Except.ok CargoEngine.CargoType.textiles
  else if s = "machinery" then Except.ok CargoEngine.CargoType.machinery
  else if s = "automotive_parts" then Except.ok CargoEngine.CargoType.automotiveParts
  else if s = "general" then Except.ok CargoEngine.CargoType.general
  else Except.error (PyExc.valueError s)

/-- `DeckType(value)` with its local try/except ValueError → None
(lines 94–99). -/
def parseDeck : Option String → Option CargoEngine.DeckType
  | some "lower_deck" => some CargoEngine.DeckType.lowerDeck
  | some "main_deck" => some CargoEngine.DeckType.mainDeck
  | _ => none

/-- `Priority(value)` with its local try/except ValueError keeping NORMAL
(lines 101–106). -/
def parsePriorityOrNormal : Option String → CargoEngine.Priority
  | some "low" => CargoEngine.Priority.low
  | some "normal" => CargoEngine.Priority.normal
  | some "high" => CargoEngine.Priority.high
  | some "urgent" => CargoEngine.Priority.urgent
  | _ => CargoEngine.Priority.normal

/-- The default expression of the `id` keyword argument (line 84): the
f-string evaluates `int(time.time())`, which first resolves the bare name
`time`; the timestamp string is never produced because that lookup
raises.  Python evaluates the default argument of `dict.get(key, default)`
eagerly, before the lookup, so this runs even when `cargo_id` is present. -/
def cargoIdDefault : Except PyExc String := do
  let _ ← lookupModuleName "time"
  pure "BEDROCK_0"

/-- Lines 77–114 of `assess_cargo`: Dimensions, Cargo and CargoRequest
construction, with every exception propagated to the handler's `except`. -/
def buildRequest (body : RequestBody) :
    Except PyExc CargoEngine.CargoRequest := do
  let dims : CargoEngine.Dimensions :=
    { length := body.dim_length.getD 1, width := body.dim_width.getD 1,
      height := body.dim_height.getD 1 }
  let dflt ← cargoIdDefault
  let cargoType ← parseCargoType (body.cargo_type.getD "general")
  let cargo : CargoEngine.Cargo :=
    { id := body.cargo_id.getD dflt, dims := dims,
      weight := body.weight.getD 100, stackable := body.stackable.getD true,
      tiltable := body.tiltable.getD true, fragile := body.fragile.getD false,
      cargoType := cargoType, specialHandling := [] }
  let req : CargoEngine.CargoRequest :=
    { cargo := cargo, preferredDeck := parseDeck body.preferred_deck,
      priority := parsePriorityOrNormal body.priority,
      requestedBy := "bedrock_agent" }
  pure req

/-- The JSON-shaped response of `assess_cargo` (the fields the claims
observe). -/
structure AssessResponse where
  assessment_successful : Bool
  cargo_id : String
  error_message : String
  recommended_position_ids : List String
deriving DecidableEq, Repr

/-- Lines 70–187, the body of the `try`: `cargo_data.get('dimensions', …)`
(line 78) raises AttributeError when `cargo_data` is not a dict; otherwise
cargo and request construction run (raising NameError at the `cargo_id`
default), and only then is the agent consulted — serializing its result
(top 10 recommendations) when one is available, or returning the
maintenance-mode fallback.  A dict whose inner values are themselves
ill-typed raises inside this same `try` and lands in the same `except`
fallback, so such events are in the same outcome class as the NameError
path. -/
def tryAssess (cargo_data : PyBody)
    (agent : Option (CargoEngine.CargoRequest → CargoEngine.AssessmentResult)) :
    Except PyExc AssessResponse := do
  let body ← match cargo_data with
    | PyBody.dict b => Except.ok b
    | PyBody.nonDict => Except.error (PyExc.attributeError "get")
  let req ← buildRequest body
  match agent with
  | some f =>
      let result := f req
      let resp : AssessResponse :=
        { assessment_successful := result.assessment_successful,
          cargo_id := result.cargo_id,
          error_message := result.error_message,
          recommended_position_ids :=
            (result.recommended_positions.take 10).map (fun r => r.position.id) }
      Except.ok resp
  | none =>
      let resp : AssessResponse :=
        { assessment_successful := false, cargo_id := req.cargo.id,
          error_message := "Agent not available - system in maintenance mode",
          recommended_position_ids := [] }
      Except.ok resp

/-- `BedrockAgentExecutor.assess_cargo` (lines 60–202): run the `try` body;
on an exception the `except` block (lines 189–202) builds the fallback
response — whose `cargo_id` field itself calls
`cargo_data.get('cargo_id', 'unknown')` (line 193), so when `cargo_data`
is not a dict the except block raises AttributeError in turn and the
exception propagates out of `assess_cargo` (the `Except.error` outcome);
otherwise the failure response is returned. -/
def assess_cargo
    (agent : Option (CargoEngine.CargoRequest → CargoEngine.AssessmentResult))
    (ev : LambdaEvent) : Except PyExc AssessResponse :=
  let cargo_data := ev.requestBody.getD (PyBody.dict emptyRequestBody)
  match tryAssess cargo_data agent with
  | Except.ok resp => Except.ok resp
  | Except.error e =>
      match cargo_data with
      | PyBody.nonDict => Except.error (PyExc.attributeError "get")
      | PyBody.dict b =>
          let resp : AssessResponse :=
            { assessment_successful := false,
              cargo_id := b.cargo_id.getD "unknown",
              error_message := "Assessment failed: " ++ e.message,
              recommended_position_ids := [] }
          Except.ok resp

/-- The fallback response returned for an event with no (or an empty)
request body. -/
def wFallbackResponse : AssessResponse :=
  { assessment_successful := false, cargo_id := "unknown",
    error_message := "Assessment failed: " ++ PyExc.message (PyExc.nameError "time"),
    recommended_position_ids := [] }

end LambdaHandler

namespace CargoEngine

/-- C6: when the weights sum to zero (including empty input),
`calculate_center_of_gravity` returns the defined sentinel (the aircraft's
empty-weight CG) rather than failing on the division. -/
theorem cg_zero_weight_sentinel (weights arms : List ℚ) (h : weights.sum = 0) :
    calculate_center_of_gravity weights arms = emptyWeightCG := by
  unfold calculate_center_of_gravity
  simp [h]

/-- Witness for `cg_zero_weight_sentinel` at the empty input. -/
theorem cg_zero_weight_sentinel_witness :
    (List.sum ([] : List ℚ) = 0) ∧
      calculate_center_of_gravity [] [17, 21] = emptyWeightCG :=
  ⟨by decide, cg_zero_weight_sentinel [] [17, 21] (by decide)⟩

/-- C3 counterexample: on Scenario D's inputs the function returns the
weighted mean 151/7 ≈ 21.57 m, which is not approximately 20.76 m (it is
more than 0.5 m away), so the claimed value 20.76 is wrong. -/
theorem scenario_d_cg_not_approx_2076 :
    calculate_center_of_gravity [500, 800, 300, 1200] [18, 20, 22, 24] = 151 / 7 ∧
      ¬ |(151 : ℚ) / 7 - 519 / 25| < 1 / 2 := by
  constructor
  · unfold calculate_center_of_gravity
    rw [if_neg (by norm_num)]
    norm_num
  · rw [abs_sub_lt_iff]
    intro h
    have := h.1
    norm_num at this

/-- C3 amended: Scenario D's CG is the weighted mean Σ(w·a)/Σw = 151/7
≈ 21.57 m, it lies within the CG envelope, and `validate_cg_limits`
applied to 20.76 also returns true. -/
theorem scenario_d_cg_value :
    calculate_center_of_gravity [500, 800, 300, 1200] [18, 20, 22, 24] = 151 / 7 ∧
      validate_cg_limits (151 / 7) cgLowerLimit cgUpperLimit = true ∧
      validate_cg_limits (519 / 25) cgLowerLimit cgUpperLimit = true := by
  refine ⟨?_, ?_, ?_⟩
  · unfold calculate_center_of_gravity
    rw [if_neg (by norm_num)]
    norm_num
  all_goals
    simp only [validate_cg_limits, cgLowerLimit, cgUpperLimit, Bool.and_eq_true,
      decide_eq_true_eq]
    constructor <;> norm_num

/-- C4: `reserve` succeeds iff the position is AVAILABLE; on success the
position transitions to RESERVED with the occupant bound to the cargo;
otherwise it fails with AlreadyOccupied (the `Except.error` result carries
no updated position, so state and occupant are unchanged), and of two
reserve calls on the same position with different cargo the first succeeds
and the second receives the conflict error. -/
theorem reserve_position_spec (p : Position) (c c' : Cargo) :
    (resultOk (reserve_position_step p c) = decide (p.state = OccState.available)) ∧
      (p.state = OccState.available →
        reserve_position_step p c =
          Except.ok { p with state := OccState.reserved, occupant := some c } ∧
        reserve_position_step
            { p with state := OccState.reserved, occupant := some c } c' =
          Except.error ReservationError.alreadyOccupied) ∧
      (p.state ≠ OccState.available →
        reserve_position_step p c = Except.error ReservationError.alreadyOccupied) ∧
      (∀ inv : List Position, p.state ≠ OccState.available →
        get_position_by_id inv p.id = some p →
        reserve_position inv p.id c = Except.error ReservationError.alreadyOccupied) := by
  obtain ⟨pid, dk, arm, md, mw, st, occ⟩ := p
  cases st <;>
    simp [reserve_position_step, reserve_position, resultOk] <;>
    intro inv h <;> simp [h, reserve_position_step, Except.map]

/-- Witness for `reserve_position_spec`: a concrete AVAILABLE position is
reserved, a second reserve with different cargo is rejected, and reserving
a concrete OCCUPIED position is rejected. -/
theorem reserve_position_spec_witness :
    reserve_position_step wPosAvail wCargo1 =
        Except.ok { wPosAvail with state := OccState.reserved, occupant := some wCargo1 } ∧
      reserve_position_step
          { wPosAvail with state := OccState.reserved, occupant := some wCargo1 } wCargo2 =
        Except.error ReservationError.alreadyOccupied ∧
      reserve_position_step wPosOccupied wCargo1 =
        Except.error ReservationError.alreadyOccupied :=
  ⟨((reserve_position_spec wPosAvail wCargo1 wCargo2).2.1 rfl).1,
   ((reserve_position_spec wPosAvail wCargo1 wCargo2).2.1 rfl).2,
   (reserve_position_spec wPosOccupied wCargo1 wCargo2).2.2.1 (by decide)⟩

/-- C5: each of reserve, occupy and release preserves the occupancy
invariant (occupant non-null iff state is RESERVED or OCCUPIED) on every
successful outcome; failed outcomes return no mutated position at all. -/
theorem occupancy_invariant_preserved (p : Position) (c : Cargo)
    (h : occupancyInvariant p) :
    (∀ p', reserve_position_step p c = Except.ok p' → occupancyInvariant p') ∧
      (∀ p', occupy_position_step p c = Except.ok p' → occupancyInvariant p') ∧
      (∀ p', release_position_step p = Except.ok p' → occupancyInvariant p') := by
  obtain ⟨pid, dk, arm, md, mw, st, occ⟩ := p
  refine ⟨fun p' hp' => ?_, fun p' hp' => ?_, fun p' hp' => ?_⟩ <;>
    cases st <;>
    simp only [reserve_position_step, occupy_position_step,
      release_position_step] at hp' <;>
    try split at hp'
  all_goals
    first
      | exact Except.noConfusion hp'
      | (injection hp' with h'; subst h'; exact h)
      | (injection hp' with h'; subst h'; simp [occupancyInvariant])

/-- Witness for `occupancy_invariant_preserved`: the invariant holds for a
concrete AVAILABLE position and is preserved by a concrete reserve. -/
theorem occupancy_invariant_preserved_witness :
    occupancyInvariant
      { wPosAvail with state := OccState.reserved, occupant := some wCargo1 } :=
  (occupancy_invariant_preserved wPosAvail wCargo1 (by decide)).1
    { wPosAvail with state := OccState.reserved, occupant := some wCargo1 } rfl

/-- C9: reserving an AVAILABLE position (occupant null) and then releasing
it restores the position exactly: the release result is the original
position value. -/
theorem reserve_release_roundtrip (p : Position) (c : Cargo)
    (h1 : p.state = OccState.available) (h2 : p.occupant = none) :
    reserve_position_step p c =
        Except.ok { p with state := OccState.reserved, occupant := some c } ∧
      release_position_step
          { p with state := OccState.reserved, occupant := some c } =
        Except.ok p := by
  obtain ⟨pid, dk, arm, md, mw, st, occ⟩ := p
  cases h1
  cases h2
  exact ⟨rfl, rfl⟩

/-- Witness for `reserve_release_roundtrip` on a concrete position. -/
theorem reserve_release_roundtrip_witness :
    reserve_position_step wPosAvail wCargo1 =
        Except.ok { wPosAvail with state := OccState.reserved, occupant := some wCargo1 } ∧
      release_position_step
          { wPosAvail with state := OccState.reserved, occupant := some wCargo1 } =
        Except.ok wPosAvail :=
  reserve_release_roundtrip wPosAvail wCargo1 rfl rfl

/-- C10: releasing an already-AVAILABLE position returns the well-defined
no-op error, both on the position itself and through the inventory; the
`Except.error` result carries no updated inventory, so state and occupant
are unchanged, and the operation is total (non-crashing). -/
theorem release_available_noop (p : Position) (inv : List Position)
    (hp : get_position_by_id inv p.id = some p)
    (h : p.state = OccState.available) :
    release_position_step p = Except.error ReservationError.alreadyAvailable ∧
      release_position inv p.id = Except.error ReservationError.alreadyAvailable := by
  have h1 : release_position_step p = Except.error ReservationError.alreadyAvailable := by
    obtain ⟨pid, dk, arm, md, mw, st, occ⟩ := p
    cases h
    rfl
  refine ⟨h1, ?_⟩
  unfold release_position
  rw [hp]
  show Except.map (setPosition inv p.id) (release_position_step p) =
    Except.error ReservationError.alreadyAvailable
  rw [h1]
  rfl

/-- Witness for `release_available_noop` on a concrete one-position
inventory. -/
theorem release_available_noop_witness :
    release_position_step wPosAvail = Except.error ReservationError.alreadyAvailable ∧
      release_position [wPosAvail] wPosAvail.id =
        Except.error ReservationError.alreadyAvailable :=
  release_available_noop wPosAvail [wPosAvail] (by decide) rfl

/-- C8: `monitor_capacity` emits a CRITICAL alert when total utilization
reaches 95% or weight utilization reaches 98%, otherwise a HIGH alert from
85%, otherwise a MEDIUM alert from 70%, and nothing below; in particular,
once total utilization reaches 85% it returns at least one HIGH or
CRITICAL alert. -/
theorem monitor_capacity_tiers (m : UtilizationMetrics) :
    ((95 ≤ m.totalUtilization ∨ 98 ≤ m.weightUtilization) →
        monitor_capacity m = [criticalCapacityAlert]) ∧
      (85 ≤ m.totalUtilization → m.totalUtilization < 95 →
        m.weightUtilization < 98 → monitor_capacity m = [highCapacityAlert]) ∧
      (70 ≤ m.totalUtilization → m.totalUtilization < 85 →
        m.weightUtilization < 98 → monitor_capacity m = [mediumCapacityAlert]) ∧
      (m.totalUtilization < 70 → m.weightUtilization < 98 →
        monitor_capacity m = []) ∧
      (85 ≤ m.totalUtilization →
        ∃ a ∈ monitor_capacity m,
          a.severity = Severity.high ∨ a.severity = Severity.critical) := by
  unfold monitor_capacity
  refine ⟨fun h => by rw [if_pos h], ?_, ?_, ?_, ?_⟩
  · intro h85 h95 h98
    rw [if_neg (by rintro (h | h) <;> linarith), if_pos h85]
  · intro h70 h85 h98
    rw [if_neg (by rintro (h | h) <;> linarith), if_neg (by linarith), if_pos h70]
  · intro h70 h98
    rw [if_neg (by rintro (h | h) <;> linarith), if_neg (by linarith),
      if_neg (by linarith)]
  · intro h85
    by_cases hc : 95 ≤ m.totalUtilization ∨ 98 ≤ m.weightUtilization
    · refine ⟨criticalCapacityAlert, ?_, Or.inr rfl⟩
      rw [if_pos hc]
      exact List.mem_singleton.mpr rfl
    · refine ⟨highCapacityAlert, ?_, Or.inl rfl⟩
      rw [if_neg hc, if_pos h85]
      exact List.mem_singleton.mpr rfl

/-- Witness for `monitor_capacity_tiers` at metrics in each tier. -/
theorem monitor_capacity_tiers_witness :
    monitor_capacity wMetrics96 = [criticalCapacityAlert] ∧
      monitor_capacity wMetrics90 = [highCapacityAlert] ∧
      monitor_capacity wMetrics75 = [mediumCapacityAlert] ∧
      monitor_capacity wMetrics20 = [] :=
  ⟨(monitor_capacity_tiers wMetrics96).1 (Or.inl (by decide)),
   (monitor_capacity_tiers wMetrics90).2.1 (by decide) (by decide) (by decide),
   (monitor_capacity_tiers wMetrics75).2.2.1 (by decide) (by decide) (by decide),
   (monitor_capacity_tiers wMetrics20).2.2.2.1 (by decide) (by decide)⟩

/-- C7: Scenario B's cargo (3.0×2.5×2.0 m, 2800 kg, non-stackable, fragile
machinery) trips the absolute-limit validation of step 1, so the
assessment against the initial inventory fails immediately with a
non-empty error message and no recommended positions — the failure branch
returns before any position is scored. -/
theorem oversized_cargo_rejected :
    exceedsAbsoluteLimits oversizedCargo = true ∧
      (assess_cargo_placement initialInventory oversizedRequest).assessment_successful
        = false ∧
      (assess_cargo_placement initialInventory oversizedRequest).error_message ≠ "" ∧
      (assess_cargo_placement initialInventory oversizedRequest).recommended_positions
        = [] := by
  have hex : exceedsAbsoluteLimits oversizedCargo = true := by decide
  refine ⟨hex, ?_, ?_, ?_⟩ <;>
    simp [assess_cargo_placement, oversizedRequest, hex]

/-- C1: whenever the coordinator reports `assessment_successful = true`,
there is at least one recommendation, and every recommended placement is
fully compliant: its resulting CG lies in [16.5 m, 26.8 m] and its
resulting total weight is at most 110,000 kg. -/
theorem assess_cargo_placement_safety (inv : List Position) (req : CargoRequest)
    (h : (assess_cargo_placement inv req).assessment_successful = true) :
    (assess_cargo_placement inv req).recommended_positions ≠ [] ∧
      ∀ rec ∈ (assess_cargo_placement inv req).recommended_positions,
        rec.constraints_satisfied = true ∧
        cgLowerLimit ≤ (calculate_cg_impact inv req.cargo rec.position).new_cg ∧
        (calculate_cg_impact inv req.cargo rec.position).new_cg ≤ cgUpperLimit ∧
        (calculate_cg_impact inv req.cargo rec.position).new_total_weight
          ≤ maxTotalWeight := by
  simp only [assess_cargo_placement] at h ⊢
  split at h
  next hEx => simp at h
  next hEx =>
    split at h
    next hEmp => split at h <;> simp at h
    next hEmp =>
      rw [if_neg hEx, if_neg hEmp]
      simp only [List.isEmpty_eq_true] at hEmp
      constructor
      · simp only [ne_eq, List.map_eq_nil_iff]
        exact hEmp
      · intro rec hrec
        simp only [List.mem_map] at hrec
        obtain ⟨t, ht, rfl⟩ := hrec
        obtain ⟨htIn, htOk⟩ := List.mem_filter.mp ht
        simp only [List.mem_map] at htIn
        obtain ⟨pc, hpcIn, rfl⟩ := htIn
        simp only [calculate_cg_impact, validate_cg_limits, Bool.and_eq_true,
          decide_eq_true_eq] at htOk
        refine ⟨rfl, ?_, ?_, ?_⟩ <;>
          simp only [mkRecommendation, calculate_cg_impact] <;>
          first
            | exact htOk.1.1
            | exact htOk.1.2
            | exact htOk.2

/-- Witness for `assess_cargo_placement_safety`: Scenario A's cargo against
a one-position inventory is accepted, and the theorem yields the CG and
weight bounds for the first recommendation. -/
theorem assess_cargo_placement_safety_witness :
    (assess_cargo_placement wInvA wRequestA).assessment_successful = true ∧
      cgLowerLimit ≤ (calculate_cg_impact wInvA wRequestA.cargo wRecA.position).new_cg ∧
      (calculate_cg_impact wInvA wRequestA.cargo wRecA.position).new_cg ≤ cgUpperLimit ∧
      (calculate_cg_impact wInvA wRequestA.cargo wRecA.position).new_total_weight
        ≤ maxTotalWeight := by
  have hex : exceedsAbsoluteLimits wCargoA = false := by decide
  have hst : wPosAvail.state = OccState.available := rfl
  have hdk : wPosAvail.deckType = DeckType.lowerDeck := rfl
  have hscore : score (some DeckType.lowerDeck) wCargoA wPosAvail = 49/100 := by
    unfold score
    rw [if_pos (show (fitsDims wCargoA wPosAvail.maxDims &&
      decide (wCargoA.weight ≤ wPosAvail.maxWeight)) = true by decide)]
    norm_num [wCargoA, wPosAvail, Dimensions.volume, volFitWeight,
      weightMarginWeight, deckPreferenceWeight, Rat.mkRat_eq_div]
  have hfind : find_best_positions wInvA (some DeckType.lowerDeck) wCargoA 10 =
      [(wPosAvail, 49/100)] := by
    norm_num [find_best_positions, wInvA, List.filter_cons, List.filter_nil, hst,
      hdk, hscore, sortScored, insertScored, List.take_succ_cons, List.take_nil]
  have hw : wCargoA.weight = 500 := rfl
  have harm : wPosAvail.arm = 20 := rfl
  have hocc : occupiedPositions wInvA = [] := rfl
  have himpact : calculate_cg_impact wInvA wCargoA wPosAvail =
      { current_cg := 0, new_cg := 20, cg_shift := 20, new_total_weight := 500,
        within_limits := true } := by
    norm_num [calculate_cg_impact, hocc, currentTotalWeight, currentCG,
      calculate_center_of_gravity, validate_cg_limits, cgLowerLimit, cgUpperLimit,
      maxTotalWeight, emptyWeightCG, hw, harm]
  have hs : (assess_cargo_placement wInvA wRequestA).assessment_successful = true := by
    norm_num [assess_cargo_placement, wRequestA, hex, hfind, himpact,
      List.filter_cons, List.filter_nil]
  have h0 := assess_cargo_placement_safety wInvA wRequestA hs
  have hmem : wRecA ∈ (assess_cargo_placement wInvA wRequestA).recommended_positions := by
    unfold wRecA
    rcases hl : (assess_cargo_placement wInvA wRequestA).recommended_positions with
      _ | ⟨r, rs⟩
    · exact absurd hl h0.1
    · simp
  obtain ⟨-, h1, h2, h3⟩ := h0.2 wRecA hmem
  exact ⟨hs, h1, h2, h3⟩

end CargoEngine

namespace LambdaHandler

/-- C2 counterexample: for the concrete event whose `requestBody` key
holds the non-dict value None, `assess_cargo` does not return a failure
result at all: line 78 raises AttributeError, line 193 inside the except
block raises it again, and the exception propagates — refuting the claim
that every input event yields a returned result with
`assessment_successful = false` and a non-empty error message. -/
theorem lambda_assess_cargo_raises_on_nondict_body :
    assess_cargo none { requestBody := some PyBody.nonDict } =
      Except.error (PyExc.attributeError "get") := rfl

/-- C2 amended: no event yields a successful assessment — every response
`assess_cargo` actually returns has `assessment_successful = false` and a
non-empty error message, because the cargo-construction expression
evaluates `time.time()` eagerly while `time` is bound only inside
`handler`, never at module scope, so construction always raises and
control reaches the error fallback.  A response is returned exactly when
`requestBody` is absent or a dict; when it holds a non-dict value the
except block re-raises AttributeError and nothing is returned. -/
theorem lambda_assess_cargo_never_succeeds
    (agent : Option (CargoEngine.CargoRequest → CargoEngine.AssessmentResult))
    (ev : LambdaEvent) :
    (∀ resp, assess_cargo agent ev = Except.ok resp →
      resp.assessment_successful = false ∧ resp.error_message ≠ "") ∧
      (ev.requestBody = none ∨ (∃ b, ev.requestBody = some (PyBody.dict b)) →
        ∃ resp, assess_cargo agent ev = Except.ok resp ∧
          resp.assessment_successful = false ∧ resp.error_message ≠ "") := by
  obtain ⟨rb⟩ := ev
  cases rb with
  | none =>
      have h : assess_cargo agent { requestBody := none } = Except.ok
          { assessment_successful := false, cargo_id := "unknown",
            error_message :=
              "Assessment failed: " ++ PyExc.message (PyExc.nameError "time"),
            recommended_position_ids := [] } := rfl
      constructor
      · intro resp hresp
        rw [h] at hresp
        injection hresp with h2
        subst h2
        refine ⟨rfl, ?_⟩
        show ("Assessment failed: " ++ PyExc.message (PyExc.nameError "time")) ≠ ""
        decide
      · intro _
        refine ⟨_, h, rfl, ?_⟩
        show ("Assessment failed: " ++ PyExc.message (PyExc.nameError "time")) ≠ ""
        decide
  | some pb =>
      cases pb with
      | dict b =>
          have h : assess_cargo agent { requestBody := some (PyBody.dict b) } =
              Except.ok
                { assessment_successful := false,
                  cargo_id := b.cargo_id.getD "unknown",
                  error_message :=
                    "Assessment failed: " ++ PyExc.message (PyExc.nameError "time"),
                  recommended_position_ids := [] } := rfl
          constructor
          · intro resp hresp
            rw [h] at hresp
            injection hresp with h2
            subst h2
            refine ⟨rfl, ?_⟩
            show ("Assessment failed: " ++ PyExc.message (PyExc.nameError "time")) ≠ ""
            decide
          · intro _
            refine ⟨_, h, rfl, ?_⟩
            show ("Assessment failed: " ++ PyExc.message (PyExc.nameError "time")) ≠ ""
            decide
      | nonDict =>
          constructor
          · intro resp hresp
            have he : assess_cargo agent { requestBody := some PyBody.nonDict } =
                Except.error (PyExc.attributeError "get") := rfl
            rw [he] at hresp
            exact Except.noConfusion hresp
          · rintro (hcase | ⟨b, hcase⟩) <;> simp at hcase

/-- Witness for `lambda_assess_cargo_never_succeeds`: the event with no
`requestBody` and the event with an empty dict body both actually return
the fallback failure response, whose fields the theorem bounds. -/
theorem lambda_assess_cargo_never_succeeds_witness :
    assess_cargo none { requestBody := none } = Except.ok wFallbackResponse ∧
      assess_cargo none { requestBody := some (PyBody.dict emptyRequestBody) } =
        Except.ok wFallbackResponse ∧
      wFallbackResponse.assessment_successful = false ∧
      wFallbackResponse.error_message ≠ "" := by
  have h3 := (lambda_assess_cargo_never_succeeds none { requestBody := none }).1
    wFallbackResponse rfl
  exact ⟨rfl, rfl, h3.1, h3.2⟩

end LambdaHandler
